import Mathlib

/-!
Verification development for the shared-mutex crate (a reader-writer lock
whose guards can wait on condition variables).

The repository ships `src/lib.rs` (the typed `SharedMutex<T>` wrapper, the
guard types, the mapped sub-borrow guards, and the condvar-mediated
transition methods).  The `raw` module (`RawSharedMutex`, the packed state
word, and the raw lock state machine) is declared in `lib.rs` (`mod raw;`)
but its source file is not part of the tree, so every definition of the raw
layer below is modelled from the specification of the raw lock state machine
and is marked as such in its doc comment.  Definitions derived from
`src/lib.rs` cite the relevant lines.
-/

/-! ## The packed state word (raw layer, modelled from the spec) -/

/-- Modelled from the spec: the state word is a single machine-width
unsigned integer; we fix the machine width at 64 bits. -/
def WORD_SIZE : Nat := 2 ^ 64

/-- Modelled from the spec: `writer_active` is the high bit of the
64-bit state word. -/
def WRITER_MASK : Nat := 2 ^ 63

/-- Modelled from the spec: the reader count occupies the remaining low
bits, so its maximum is all-ones on the low 63 bits. -/
def MAX_READERS : Nat := 2 ^ 63 - 1

/-- Modelled from the spec: `readers()` returns the low-bits value of the
state word. -/
def readers (s : Nat) : Nat := s % WRITER_MASK

/-- Modelled from the spec: `is_writer_active()` returns the high-bit state.
For a word below `WORD_SIZE` the high bit is set exactly when the word is at
least `WRITER_MASK`. -/
def is_writer_active (s : Nat) : Bool := decide (WRITER_MASK ≤ s)

/-- Modelled from the spec: `set_writer_active()` sets the high bit and
leaves the reader bits unchanged. -/
def set_writer_active (s : Nat) : Nat :=
  if is_writer_active s then s else s + WRITER_MASK

/-- Modelled from the spec: `clear_all()` wipes the entire state word to
zero. -/
def clear_all (_s : Nat) : Nat := 0

/-- Modelled from the spec: `add_reader()` increments the low bits; callers
must uphold the no-overflow invariant. -/
def add_reader (s : Nat) : Nat := s + 1

/-- Modelled from the spec: `remove_reader()` decrements the low bits;
callers must uphold the no-underflow invariant. -/
def remove_reader (s : Nat) : Nat := s - 1

/-- Modelled from the spec: `at_max_readers()` is the capacity predicate on
the reader field. -/
def at_max_readers (s : Nat) : Bool := decide (readers s = MAX_READERS)

/-! ## The lock state machine as a labelled transition system

The raw acquisition and release procedures are sequences of atomic critical
sections under the internal mutex.  Each constructor of `Step` below is one
such atomic section, modelled from the spec:

* `acquireRead` — `read()` steps 1–3: the final loop iteration in which the
  wait predicate (`writer_active` or `at_max_readers`) is false and the
  thread increments `readers` and returns as read-holder.  Iterations in
  which the predicate holds leave the state word unchanged (the thread
  blocks) and are stutter steps, not modelled.
* `announceWrite` — `write()` steps 1–2: the iteration in which
  `writer_active` is false and the thread sets it, becoming the announced
  writer.
* `enterWrite` — `write()` steps 3–4: the iteration in which the announced
  writer observes `readers == 0` and returns as write-holder.
* `releaseRead` — `unlock_read()`: a read-holder decrements `readers`
  (signalling does not change the state word).
* `releaseWrite` — `unlock_write()`: a write-holder wipes the word to zero.

The four condvar-mediated transitions decompose into these same atomic
sections (the release half of the source mode, then — after the external
wait — the acquire half of the destination mode), so the reachable states
of this system include all states reachable through the transitions.

Besides the state word, a configuration carries ghost thread counters:
`nR` threads in the read-holder post-condition, `nA` announced writers
(between `write()` step 2 and step 4), `nW` threads in the write-holder
post-condition. -/

/-- A configuration of the lock: the packed state word plus ghost counts of
threads in each holder phase. -/
structure Config where
  word : Nat
  nR : Nat
  nA : Nat
  nW : Nat
deriving DecidableEq, Repr

/-- Labels naming the atomic critical sections of the raw state machine. -/
inductive Label
  | acquireRead
  | announceWrite
  | enterWrite
  | releaseRead
  | releaseWrite
deriving DecidableEq, Repr

/-- Modelled from the spec: one atomic critical section of the raw lock
state machine (see the section comment above for the correspondence with
the spec's `read()`, `write()`, `unlock_read()`, `unlock_write()`). -/
inductive Step : Label → Config → Config → Prop
  | acquireRead {c : Config}
      (hw : is_writer_active c.word = false)
      (hm : at_max_readers c.word = false) :
      Step Label.acquireRead c ⟨add_reader c.word, c.nR + 1, c.nA, c.nW⟩
  | announceWrite {c : Config}
      (hw : is_writer_active c.word = false) :
      Step Label.announceWrite c ⟨set_writer_active c.word, c.nR, c.nA + 1, c.nW⟩
  | enterWrite {c : Config}
      (ha : 0 < c.nA)
      (hr : readers c.word = 0) :
      Step Label.enterWrite c ⟨c.word, c.nR, c.nA - 1, c.nW + 1⟩
  | releaseRead {c : Config}
      (hr : 0 < c.nR) :
      Step Label.releaseRead c ⟨remove_reader c.word, c.nR - 1, c.nA, c.nW⟩
  | releaseWrite {c : Config}
      (hw : 0 < c.nW) :
      Step Label.releaseWrite c ⟨clear_all c.word, c.nR, c.nA, c.nW - 1⟩

/-- Some atomic section fires, whatever its label. -/
def StepAny (a b : Config) : Prop := ∃ l, Step l a b

/-- The initial configuration: the state word is created zero and no thread
holds the lock. -/
def initConfig : Config := ⟨0, 0, 0, 0⟩

/-- A configuration is reachable when some interleaving of atomic sections
leads to it from the initial configuration. -/
def Reachable (c : Config) : Prop := Relation.ReflTransGen StepAny initConfig c

/-- The inductive invariant of the raw state machine: the word stays inside
the machine width, the reader field counts exactly the read-holders, the
high bit (the quotient by `WRITER_MASK`, which is `1` exactly when
`writer_active` is set) accounts for the unique announced-or-holding
writer, and a write-holder excludes active readers. -/
def LockInv (c : Config) : Prop :=
  c.word < WORD_SIZE ∧
  readers c.word = c.nR ∧
  c.nA + c.nW = c.word / WRITER_MASK ∧
  (0 < c.nW → readers c.word = 0)

/-- A finite execution: `Run a ls b` records the labels of the atomic
sections fired along a run from `a` to `b`. -/
inductive Run : Config → List Label → Config → Prop
  | nil (c : Config) : Run c [] c
  | cons {a b c : Config} {l : Label} {ls : List Label}
      (hstep : Step l a b) (hrest : Run b ls c) : Run a (l :: ls) c

/-! ## Raw release and try-acquire operations on the state word

Besides mutating the word these return the condition-variable signals they
send, so that the signalling strategy is part of the model. -/

/-- A signal sent on one of the two internal condition variables. -/
inductive Notification
  | notify_one_readers
  | notify_one_both
  | notify_all_both
deriving DecidableEq, Repr

/-- Modelled from the spec: `unlock_read()` decrements `readers`; if
`writer_active` is set and the count reached zero it signals `readers_cv`
(one waiter), else if the decrement left the maximum it signals `both_cv`
(one waiter). -/
def RawSharedMutex.unlock_read (s : Nat) : Nat × List Notification :=
  if is_writer_active (remove_reader s) && decide (readers (remove_reader s) = 0) then
    (remove_reader s, [Notification.notify_one_readers])
  else if at_max_readers s then
    (remove_reader s, [Notification.notify_one_both])
  else
    (remove_reader s, [])

/-- Modelled from the spec: `unlock_write()` wipes the entire state word to
zero and notifies all waiters on `both_cv`. -/
def RawSharedMutex.unlock_write (s : Nat) : Nat × List Notification :=
  (clear_all s, [Notification.notify_all_both])

/-- Modelled from the spec: `try_read()` fails (returning `false` and the
unchanged word) exactly when `read()`'s wait predicate — `writer_active` or
`at_max_readers` — holds; otherwise it increments `readers` and succeeds. -/
def RawSharedMutex.try_read (s : Nat) : Bool × Nat :=
  if is_writer_active s || at_max_readers s then (false, s)
  else (true, add_reader s)

/-- Modelled from the spec: `try_write()` must never block, so it can
succeed only when `write()` would block at neither of its wait points:
it fails when `writer_active` is set (first wait predicate) and also when
any reader is active (second wait predicate, scenario S5: `try_write`
fails while a reader is held); otherwise it sets `writer_active` and
succeeds. -/
def RawSharedMutex.try_write (s : Nat) : Bool × Nat :=
  if is_writer_active s || decide (0 < readers s) then (false, s)
  else (true, set_writer_active s)

/-- Modelled from the spec: `is` / `identity_eq` compares two lock handles
by pointer identity; lock objects are modelled by numeric identities, so
identity of handles is equality of identities. -/
def RawSharedMutex.is (a b : Nat) : Bool := a == b

/-! ## Raw calls and their lock-discipline footprint

`src/lib.rs` drives the raw lock exclusively through the calls below; a
guard method is embedded as the list of raw calls its body performs
(`mem::forget(self)` in the source suppresses the guard's destructor, so a
forgotten guard contributes no `unlock_*` call).  `primsOfCall` gives each
raw call's footprint in terms of elementary read/write acquisitions and
releases; for the four condvar waits it is modelled from the spec (release
half of the source mode, external wait, acquire half of the destination
mode). -/

/-- A call from `src/lib.rs` into the raw lock. -/
inductive RawCall
  | read
  | write
  | unlock_read
  | unlock_write
  | wait_from_read_to_read
  | wait_from_read_to_write
  | wait_from_write_to_read
  | wait_from_write_to_write
  | is_check
deriving DecidableEq, Repr

/-- An elementary acquisition or release of the lock in one of the two
modes. -/
inductive Prim
  | acqR
  | relR
  | acqW
  | relW
deriving DecidableEq, Repr

/-- The acquisition/release footprint of each raw call.  The four condvar
waits are modelled from the spec: each performs the release half of its
source mode and the acquire half of its destination mode; `is_check` is a
pure identity comparison and touches no lock state. -/
def primsOfCall : RawCall → List Prim
  | RawCall.read => [Prim.acqR]
  | RawCall.write => [Prim.acqW]
  | RawCall.unlock_read => [Prim.relR]
  | RawCall.unlock_write => [Prim.relW]
  | RawCall.wait_from_read_to_read => [Prim.relR, Prim.acqR]
  | RawCall.wait_from_read_to_write => [Prim.relR, Prim.acqW]
  | RawCall.wait_from_write_to_read => [Prim.relW, Prim.acqR]
  | RawCall.wait_from_write_to_write => [Prim.relW, Prim.acqW]
  | RawCall.is_check => []

/-- The footprint of a list of raw calls. -/
def primsOfTrace : List RawCall → List Prim
  | [] => []
  | c :: rest => primsOfCall c ++ primsOfTrace rest

/-- Occurrences of an elementary operation in a footprint. -/
def countPrim (p : Prim) : List Prim → Nat
  | [] => 0
  | q :: rest => (if q = p then 1 else 0) + countPrim p rest

/-- The two holder modes of the lock. -/
inductive Mode
  | read
  | write
deriving DecidableEq, Repr

/-- The elementary release of each mode. -/
def relPrim : Mode → Prim
  | Mode.read => Prim.relR
  | Mode.write => Prim.relW

/-- The elementary acquisition of each mode. -/
def acqPrim : Mode → Prim
  | Mode.read => Prim.acqR
  | Mode.write => Prim.acqW

/-- The raw call a guard's destructor performs: `Drop for
SharedMutexReadGuard` calls `raw.unlock_read()` (`src/lib.rs` line 255) and
`Drop for SharedMutexWriteGuard` calls `raw.unlock_write()` (line 260). -/
def dropCall : Mode → RawCall
  | Mode.read => RawCall.unlock_read
  | Mode.write => RawCall.unlock_write

/-- The blocking acquisition call of each mode (`SharedMutex::read` /
`SharedMutex::write`, `src/lib.rs` lines 62–72). -/
def acquireCall : Mode → RawCall
  | Mode.read => RawCall.read
  | Mode.write => RawCall.write

/-- The raw wait call behind each of the four guard transition methods
(`src/lib.rs` lines 185–208 and 229–250). -/
def transRawCall : Mode → Mode → RawCall
  | Mode.read, Mode.read => RawCall.wait_from_read_to_read
  | Mode.read, Mode.write => RawCall.wait_from_read_to_write
  | Mode.write, Mode.read => RawCall.wait_from_write_to_read
  | Mode.write, Mode.write => RawCall.wait_from_write_to_write

/-- How a caller consumes a ticket of mode `m`: drop the guard, or hand it
to one of the condvar-mediated transition methods and consume the guard the
transition returns (`wait_for_read` returns a read guard, `wait_for_write`
a write guard, whatever the source mode — `src/lib.rs` lines 185–208 and
229–250). -/
inductive Use : Mode → Type
  | drop (m : Mode) : Use m
  | waitForRead {m : Mode} (rest : Use Mode.read) : Use m
  | waitForWrite {m : Mode} (rest : Use Mode.write) : Use m

/-- The raw calls performed while consuming a ticket: dropping a guard runs
its destructor's unlock (`src/lib.rs` lines 253–261); a transition method
performs exactly its raw wait call and then `mem::forget(self)`, so the
input guard's destructor never runs and contributes no call. -/
def traceOf : {m : Mode} → Use m → List RawCall
  | m, Use.drop _ => [dropCall m]
  | m, Use.waitForRead rest => transRawCall m Mode.read :: traceOf rest
  | m, Use.waitForWrite rest => transRawCall m Mode.write :: traceOf rest

/-! ## The typed wrapper and its guards (`src/lib.rs`)

A `SharedMutex<T>` owns a raw lock and the protected value wrapped in
`Poison<T>`; the external `poison` crate is modelled by a single boolean
flag.  The raw lock object is modelled by a numeric identity (`raw_id`),
which stands for its address: `recover` compares identities where the
source compares pointers.  Guards carry the protected value and the
identity of the mutex they came from.  Each guard method below returns the
list of raw calls its body performs next to its result. -/

/-- `SharedMutex<T>` (`src/lib.rs` lines 32–35): the raw lock plus the
poison-wrapped data. -/
structure SharedMutex (α : Type) where
  raw_id : Nat
  word : Nat
  poisoned : Bool
  data : α
deriving DecidableEq, Repr

/-- `SharedMutexReadGuard` (`src/lib.rs` lines 109–112). -/
structure SharedMutexReadGuard (α : Type) where
  data : α
  mutexId : Nat
deriving DecidableEq, Repr

/-- `SharedMutexWriteGuard` (`src/lib.rs` lines 118–121); the
`PoisonGuard` it carries belongs to the external poison crate and is not
modelled. -/
structure SharedMutexWriteGuard (α : Type) where
  data : α
  mutexId : Nat
deriving DecidableEq, Repr

/-- `MappedSharedMutexReadGuard` (`src/lib.rs` lines 267–270): a sub-borrow
holding only the raw lock reference. -/
structure MappedSharedMutexReadGuard (α : Type) where
  mutexId : Nat
  data : α
deriving DecidableEq, Repr

/-- `MappedSharedMutexWriteGuard` (`src/lib.rs` lines 276–280); its
`RawPoisonGuard` belongs to the external poison crate and is not
modelled. -/
structure MappedSharedMutexWriteGuard (α : Type) where
  mutexId : Nat
  data : α
deriving DecidableEq, Repr

/-- `Drop for SharedMutexReadGuard` (`src/lib.rs` line 255). -/
def SharedMutexReadGuard.dropCalls {α : Type} (_g : SharedMutexReadGuard α) :
    List RawCall := [RawCall.unlock_read]

/-- `Drop for SharedMutexWriteGuard` (`src/lib.rs` line 260). -/
def SharedMutexWriteGuard.dropCalls {α : Type} (_g : SharedMutexWriteGuard α) :
    List RawCall := [RawCall.unlock_write]

/-- `Drop for MappedSharedMutexReadGuard` (`src/lib.rs` line 424). -/
def MappedSharedMutexReadGuard.dropCalls {α : Type}
    (_g : MappedSharedMutexReadGuard α) : List RawCall := [RawCall.unlock_read]

/-- `Drop for MappedSharedMutexWriteGuard` (`src/lib.rs` line 429). -/
def MappedSharedMutexWriteGuard.dropCalls {α : Type}
    (_g : MappedSharedMutexWriteGuard α) : List RawCall := [RawCall.unlock_write]

/-- `SharedMutexReadGuard::wait_for_read` (`src/lib.rs` lines 199–208):
calls `raw.wait_from_read_to_read(cond)`, builds a new read guard on the
same mutex, and forgets `self` (so no `unlock_read` from the destructor). -/
def SharedMutexReadGuard.wait_for_read {α : Type} (g : SharedMutexReadGuard α)
    (_cv : Nat) : List RawCall × SharedMutexReadGuard α :=
  ([RawCall.wait_from_read_to_read], ⟨g.data, g.mutexId⟩)

/-- `SharedMutexReadGuard::wait_for_write` (`src/lib.rs` lines 185–194):
calls `raw.wait_from_read_to_write(cond)`, builds a write guard on the same
mutex, and forgets `self`. -/
def SharedMutexReadGuard.wait_for_write {α : Type} (g : SharedMutexReadGuard α)
    (_cv : Nat) : List RawCall × SharedMutexWriteGuard α :=
  ([RawCall.wait_from_read_to_write], ⟨g.data, g.mutexId⟩)

/-- `SharedMutexWriteGuard::wait_for_read` (`src/lib.rs` lines 241–250):
calls `raw.wait_from_write_to_read(cond)`, builds a read guard on the same
mutex, and forgets `self`. -/
def SharedMutexWriteGuard.wait_for_read {α : Type} (g : SharedMutexWriteGuard α)
    (_cv : Nat) : List RawCall × SharedMutexReadGuard α :=
  ([RawCall.wait_from_write_to_read], ⟨g.data, g.mutexId⟩)

/-- `SharedMutexWriteGuard::wait_for_write` (`src/lib.rs` lines 229–238):
calls `raw.wait_from_write_to_write(cond)`, builds a write guard on the
same mutex, and forgets `self`. -/
def SharedMutexWriteGuard.wait_for_write {α : Type} (g : SharedMutexWriteGuard α)
    (_cv : Nat) : List RawCall × SharedMutexWriteGuard α :=
  ([RawCall.wait_from_write_to_write], ⟨g.data, g.mutexId⟩)

/-- `SharedMutexReadGuard::into_mapped` (`src/lib.rs` lines 170–180):
builds the mapped guard and forgets `self` (no unlock). -/
def SharedMutexReadGuard.into_mapped {α : Type} (g : SharedMutexReadGuard α) :
    List RawCall × MappedSharedMutexReadGuard α :=
  ([], ⟨g.mutexId, g.data⟩)

/-- `SharedMutexWriteGuard::into_mapped` (`src/lib.rs` lines 215–226):
builds the mapped guard and forgets `self` (no unlock). -/
def SharedMutexWriteGuard.into_mapped {α : Type} (g : SharedMutexWriteGuard α) :
    List RawCall × MappedSharedMutexWriteGuard α :=
  ([], ⟨g.mutexId, g.data⟩)

/-- The outcome of `SharedMutex::try_read` / `try_write`
(`std::sync::TryLockResult`): a healthy guard, a guard wrapped in a poison
error (the caller still holds the lock), or the would-block error. -/
inductive TryResult (G : Type)
  | ok (g : G)
  | poisoned (g : G)
  | wouldBlock
deriving DecidableEq, Repr

/-- Whether the caller ended up holding the lock. -/
def TryResult.acquired {G : Type} : TryResult G → Bool
  | TryResult.ok _ => true
  | TryResult.poisoned _ => true
  | TryResult.wouldBlock => false

/-- `SharedMutex::try_read` (`src/lib.rs` lines 78–84): if the raw
try-acquire succeeds, build a guard (wrapped in a poison error when the
data is poisoned — `try!` then surfaces it, the guard travelling inside
the error); otherwise return `WouldBlock`. -/
def SharedMutex.try_read {α : Type} (m : SharedMutex α) :
    TryResult (SharedMutexReadGuard α) × SharedMutex α :=
  if (RawSharedMutex.try_read m.word).1 then
    (if m.poisoned then TryResult.poisoned ⟨m.data, m.raw_id⟩
     else TryResult.ok ⟨m.data, m.raw_id⟩,
     { m with word := (RawSharedMutex.try_read m.word).2 })
  else
    (TryResult.wouldBlock, m)

/-- `SharedMutex::try_write` (`src/lib.rs` lines 90–96): as `try_read`,
with the raw write try-acquire and a write guard. -/
def SharedMutex.try_write {α : Type} (m : SharedMutex α) :
    TryResult (SharedMutexWriteGuard α) × SharedMutex α :=
  if (RawSharedMutex.try_write m.word).1 then
    (if m.poisoned then TryResult.poisoned ⟨m.data, m.raw_id⟩
     else TryResult.ok ⟨m.data, m.raw_id⟩,
     { m with word := (RawSharedMutex.try_write m.word).2 })
  else
    (TryResult.wouldBlock, m)

/-- `MappedSharedMutexReadGuard::recover` (`src/lib.rs` lines 326–338):
identity-compare the guard's raw lock with the passed mutex's; on identity,
build the original full guard and forget `self` (no unlock); otherwise hand
`self` back unchanged in the error. -/
def MappedSharedMutexReadGuard.recover {α β : Type}
    (g : MappedSharedMutexReadGuard α) (m : SharedMutex β) :
    List RawCall × Except (MappedSharedMutexReadGuard α) (SharedMutexReadGuard β) :=
  if RawSharedMutex.is g.mutexId m.raw_id then
    ([RawCall.is_check], Except.ok ⟨m.data, m.raw_id⟩)
  else
    ([RawCall.is_check], Except.error g)

/-- `MappedSharedMutexWriteGuard::recover` (`src/lib.rs` lines 388–400). -/
def MappedSharedMutexWriteGuard.recover {α β : Type}
    (g : MappedSharedMutexWriteGuard α) (m : SharedMutex β) :
    List RawCall × Except (MappedSharedMutexWriteGuard α) (SharedMutexWriteGuard β) :=
  if RawSharedMutex.is g.mutexId m.raw_id then
    ([RawCall.is_check], Except.ok ⟨m.data, m.raw_id⟩)
  else
    ([RawCall.is_check], Except.error g)

/-- `MappedSharedMutexReadGuard::result_map` (`src/lib.rs` lines 301–319):
run the action on the borrowed data; on `Ok` forget `self` (no unlock) and
return a mapped guard at the sub-borrow, on `Err` hand back `(self, e)`
untouched.  The body performs no raw call at all. -/
def MappedSharedMutexReadGuard.result_map {α β ε : Type}
    (g : MappedSharedMutexReadGuard α) (action : α → Except ε β) :
    List RawCall × Except (MappedSharedMutexReadGuard α × ε) (MappedSharedMutexReadGuard β) :=
  match action g.data with
  | Except.ok new_data => ([], Except.ok ⟨g.mutexId, new_data⟩)
  | Except.error e => ([], Except.error (g, e))

/-- `MappedSharedMutexWriteGuard::result_map` (`src/lib.rs` lines
360–381): as the read version (the poison guard it moves across belongs to
the external poison crate and is not modelled). -/
def MappedSharedMutexWriteGuard.result_map {α β ε : Type}
    (g : MappedSharedMutexWriteGuard α) (action : α → Except ε β) :
    List RawCall × Except (MappedSharedMutexWriteGuard α × ε) (MappedSharedMutexWriteGuard β) :=
  match action g.data with
  | Except.ok new_data => ([], Except.ok ⟨g.mutexId, new_data⟩)
  | Except.error e => ([], Except.error (g, e))

/-! ## Concrete configurations used by the witnesses -/

/-- The configuration after one `announceWrite` from the initial state. -/
def cfgAnnounced : Config := ⟨WRITER_MASK, 0, 1, 0⟩

/-- The configuration after `announceWrite` then `enterWrite`: one
write-holder. -/
def cfgWriting : Config := ⟨WRITER_MASK, 0, 0, 1⟩

/-- The configuration with exactly one read-holder. -/
def cfgOneReader : Config := ⟨1, 1, 0, 0⟩


theorem writer_mask_eq : WRITER_MASK = 9223372036854775808 := by
  norm_num [WRITER_MASK]

theorem word_size_eq : WORD_SIZE = 18446744073709551616 := by
  norm_num [WORD_SIZE]

theorem max_readers_eq : MAX_READERS = 9223372036854775807 := by
  norm_num [MAX_READERS]

theorem readers_eq_mod (s : Nat) : readers s = s % 9223372036854775808 := by
  rw [readers, writer_mask_eq]

theorem is_writer_active_iff {s : Nat} :
    is_writer_active s = true ↔ WRITER_MASK ≤ s := by
  simp [is_writer_active]

theorem is_writer_active_false_iff {s : Nat} :
    is_writer_active s = false ↔ s < WRITER_MASK := by
  simp [is_writer_active]

theorem at_max_readers_false_iff {s : Nat} :
    at_max_readers s = false ↔ readers s ≠ MAX_READERS := by
  simp [at_max_readers]

theorem set_writer_active_of_clear {s : Nat} (h : is_writer_active s = false) :
    set_writer_active s = s + WRITER_MASK := by
  rw [set_writer_active, h]
  simp

/-- The invariant holds initially. -/
theorem lockInv_init : LockInv initConfig := by
  refine ⟨by norm_num [initConfig, WORD_SIZE], by simp [initConfig, readers], ?_, ?_⟩
  · simp [initConfig, WRITER_MASK]
  · simp [initConfig]

/-- Each atomic section preserves the invariant. -/
theorem lockInv_step {l : Label} {c c' : Config} (hinv : LockInv c) (hstep : Step l c c') :
    LockInv c' := by
  obtain ⟨hlt, hrd, hwa, hex⟩ := hinv
  rw [word_size_eq] at hlt
  rw [readers_eq_mod] at hrd
  rw [writer_mask_eq] at hwa
  have hex2 : c.nW = 0 ∨ c.word % 9223372036854775808 = 0 := by
    rcases Nat.eq_zero_or_pos c.nW with h | h
    · exact Or.inl h
    · exact Or.inr (by rw [← readers_eq_mod]; exact hex h)
  clear hex
  cases hstep with
  | acquireRead hw hm =>
      rw [is_writer_active_false_iff, writer_mask_eq] at hw
      rw [at_max_readers_false_iff, readers_eq_mod, max_readers_eq] at hm
      refine ⟨?_, ?_, ?_, ?_⟩ <;>
        simp only [add_reader, readers_eq_mod, word_size_eq, writer_mask_eq] <;> omega
  | announceWrite hw =>
      have hset := set_writer_active_of_clear hw
      rw [writer_mask_eq] at hset
      rw [is_writer_active_false_iff, writer_mask_eq] at hw
      refine ⟨?_, ?_, ?_, ?_⟩ <;>
        simp only [hset, readers_eq_mod, word_size_eq, writer_mask_eq] <;> omega
  | enterWrite ha hr =>
      rw [readers_eq_mod] at hr
      refine ⟨?_, ?_, ?_, ?_⟩ <;>
        simp only [readers_eq_mod, word_size_eq, writer_mask_eq] <;> omega
  | releaseRead hr =>
      refine ⟨?_, ?_, ?_, ?_⟩ <;>
        simp only [remove_reader, readers_eq_mod, word_size_eq, writer_mask_eq] <;> omega
  | releaseWrite hw =>
      refine ⟨?_, ?_, ?_, ?_⟩ <;>
        simp only [clear_all, readers_eq_mod, word_size_eq, writer_mask_eq] <;> omega
theorem lockInv_reachable {c : Config} (h : Reachable c) : LockInv c := by
  induction h with
  | refl => exact lockInv_init
  | tail _ hstep ih =>
      obtain ⟨l, hl⟩ := hstep
      exact lockInv_step ih hl

/-! ## Helper lemmas for the witnesses and the temporal claim -/

theorem step_init_announce : Step Label.announceWrite initConfig cfgAnnounced := by
  have h := @Step.announceWrite initConfig (by decide)
  have he : set_writer_active initConfig.word = WRITER_MASK := by decide
  simpa [initConfig, cfgAnnounced, he] using h

theorem step_announce_enter : Step Label.enterWrite cfgAnnounced cfgWriting := by
  have h := @Step.enterWrite cfgAnnounced (by decide) (by decide)
  simpa [cfgAnnounced, cfgWriting] using h

theorem step_writing_release : Step Label.releaseWrite cfgWriting initConfig := by
  have h := @Step.releaseWrite cfgWriting (by decide)
  simpa [cfgWriting, initConfig, clear_all] using h

theorem step_init_read : Step Label.acquireRead initConfig cfgOneReader := by
  have h := @Step.acquireRead initConfig (by decide) (by decide)
  simpa [initConfig, cfgOneReader, add_reader] using h

theorem reach_cfgAnnounced : Reachable cfgAnnounced :=
  Relation.ReflTransGen.tail Relation.ReflTransGen.refl
    ⟨Label.announceWrite, step_init_announce⟩

theorem reach_cfgWriting : Reachable cfgWriting :=
  Relation.ReflTransGen.tail reach_cfgAnnounced
    ⟨Label.enterWrite, step_announce_enter⟩

theorem run_writing_release_then_read :
    Run cfgWriting [Label.releaseWrite, Label.acquireRead] cfgOneReader :=
  Run.cons step_writing_release (Run.cons step_init_read (Run.nil cfgOneReader))

/-- While the writer flag is set, every atomic section other than
`releaseWrite` (the only one that clears the word) keeps it set. -/
theorem writer_flag_persists {l : Label} {c c' : Config} (hinv : LockInv c)
    (hstep : Step l c c') (hw : is_writer_active c.word = true)
    (hl : l ≠ Label.releaseWrite) : is_writer_active c'.word = true := by
  obtain ⟨hlt, hrd, -, -⟩ := hinv
  cases hstep with
  | acquireRead hwf hm => rw [hwf] at hw; simp at hw
  | announceWrite hwf => rw [hwf] at hw; simp at hw
  | enterWrite ha hr => exact hw
  | releaseRead hr =>
      dsimp only
      rw [is_writer_active_iff, writer_mask_eq] at hw ⊢
      rw [readers_eq_mod] at hrd
      rw [word_size_eq] at hlt
      simp only [remove_reader]
      omega
  | releaseWrite hwp => exact absurd rfl hl

/-- Along any run out of a reachable configuration whose writer flag is
set, a read acquisition can occur only after a `releaseWrite` has cleared
the flag. -/
theorem run_release_before_acquire {c0 c : Config} {ls : List Label}
    (hrun : Run c0 ls c) :
    ∀ pre suf : List Label, ls = pre ++ Label.acquireRead :: suf →
    Reachable c0 → is_writer_active c0.word = true →
    Label.releaseWrite ∈ pre := by
  induction hrun with
  | nil c1 =>
      intro pre suf hsplit _ _
      exact absurd hsplit (by simp)
  | cons hstep hrest ih =>
      rename_i a1 b1 c1 l1 ls1
      intro pre suf hsplit hreach hw
      cases pre with
      | nil =>
          simp only [List.nil_append, List.cons.injEq] at hsplit
          obtain ⟨rfl, rfl⟩ := hsplit
          cases hstep with
          | acquireRead hwf hm => rw [hwf] at hw; simp at hw
      | cons l0 pre2 =>
          simp only [List.cons_append, List.cons.injEq] at hsplit
          obtain ⟨heq, hsplit2⟩ := hsplit
          subst heq
          by_cases hl : l1 = Label.releaseWrite
          · subst hl
            exact List.mem_cons_self _ _
          · have hinv := lockInv_reachable hreach
            have hw2 := writer_flag_persists hinv hstep hw hl
            have hreach2 := Relation.ReflTransGen.tail hreach ⟨l1, hstep⟩
            exact List.mem_cons_of_mem _ (ih pre2 suf hsplit2 hreach2 hw2)

/-! ## The claims -/

/-- C1: for every reachable state of the lock, either the reader count is
zero or no thread is in the write-holder post-condition, so read-holders
and a write-holder never coexist. -/
theorem c1_readers_zero_or_no_write_holder {c : Config} (h : Reachable c) :
    readers c.word = 0 ∨ c.nW = 0 := by
  obtain ⟨-, -, -, hex⟩ := lockInv_reachable h
  rcases Nat.eq_zero_or_pos c.nW with h0 | h0
  · exact Or.inr h0
  · exact Or.inl (hex h0)

/-- Witness for C1: the reachable configuration holding one write-holder
satisfies the disjunction. -/
theorem c1_witness : readers cfgWriting.word = 0 ∨ cfgWriting.nW = 0 :=
  c1_readers_zero_or_no_write_holder reach_cfgWriting

/-- C2: when `write()` returns to its caller as write-holder (the
`enterWrite` section, `write()` steps 3–4), the state word satisfies:
`writer_active` set and `readers == 0`. -/
theorem c2_write_postcondition {c c' : Config} (hreach : Reachable c)
    (hstep : Step Label.enterWrite c c') :
    is_writer_active c'.word = true ∧ readers c'.word = 0 := by
  obtain ⟨hlt, hrd, hwa, -⟩ := lockInv_reachable hreach
  cases hstep with
  | enterWrite ha hr =>
      dsimp only
      constructor
      · rw [is_writer_active_iff, writer_mask_eq]
        rw [writer_mask_eq] at hwa
        rw [word_size_eq] at hlt
        omega
      · exact hr

/-- Witness for C2: the announced writer entering its critical section from
`cfgAnnounced` ends with the flag set and no readers. -/
theorem c2_witness :
    is_writer_active cfgWriting.word = true ∧ readers cfgWriting.word = 0 :=
  c2_write_postcondition reach_cfgAnnounced step_announce_enter

/-- C3: `unlock_write` wipes the entire state word to zero — clearing
`writer_active` and leaving `readers == 0` — and notifies all waiters on
`both_cv`; the write guard's destructor invokes exactly this raw unlock. -/
theorem c3_unlock_write_wipes_and_notifies_all (s : Nat) :
    (RawSharedMutex.unlock_write s).1 = 0 ∧
    is_writer_active (RawSharedMutex.unlock_write s).1 = false ∧
    readers (RawSharedMutex.unlock_write s).1 = 0 ∧
    (RawSharedMutex.unlock_write s).2 = [Notification.notify_all_both] ∧
    (∀ (α : Type) (g : SharedMutexWriteGuard α),
      g.dropCalls = [RawCall.unlock_write]) :=
  ⟨rfl, rfl, rfl, rfl, fun _ _ => rfl⟩

/-- C4: writer preference — from any reachable state in which
`writer_active` is set, no step of the transition relation lets a new
reader pass its wait predicate (no `acquireRead` occurs along any run)
until `writer_active` has been cleared at least once (a `releaseWrite`,
the only clearing step, occurs first). -/
theorem c4_writer_preference (c0 c : Config) (ls pre suf : List Label)
    (hreach : Reachable c0) (hw : is_writer_active c0.word = true)
    (hrun : Run c0 ls c) (hsplit : ls = pre ++ Label.acquireRead :: suf) :
    Label.releaseWrite ∈ pre :=
  run_release_before_acquire hrun pre suf hsplit hreach hw

/-- Witness for C4: from the reachable write-holding configuration, the run
that releases the write lock and then acquires a read lock indeed has its
`releaseWrite` before the read acquisition. -/
theorem c4_witness : Label.releaseWrite ∈ [Label.releaseWrite] :=
  c4_writer_preference cfgWriting cfgOneReader
    [Label.releaseWrite, Label.acquireRead] [Label.releaseWrite] []
    reach_cfgWriting (by decide) run_writing_release_then_read rfl

/-! ## Balance of acquisitions and releases (trace model) -/

theorem countPrim_append (p : Prim) (a b : List Prim) :
    countPrim p (a ++ b) = countPrim p a + countPrim p b := by
  induction a with
  | nil => simp [countPrim]
  | cons q rest ih => simp [countPrim, ih, Nat.add_assoc]

/-- Consuming a ticket of mode `m` performs exactly one net release of mode
`m` and zero net releases of the other mode, whatever chain of transitions
precedes the final drop. -/
theorem use_net_release : ∀ {m : Mode} (u : Use m) (mo : Mode),
    countPrim (relPrim mo) (primsOfTrace (traceOf u)) =
      countPrim (acqPrim mo) (primsOfTrace (traceOf u)) +
        (if mo = m then 1 else 0) := by
  intro m u
  induction u with
  | drop m1 =>
      intro mo
      cases m1 <;> cases mo <;> decide
  | waitForRead rest ih =>
      rename_i m1
      intro mo
      have h := ih mo
      cases m1 <;> cases mo <;>
        simp [traceOf, primsOfTrace, countPrim_append, countPrim, transRawCall,
          primsOfCall, relPrim, acqPrim] at h ⊢ <;>
        omega
  | waitForWrite rest ih =>
      rename_i m1
      intro mo
      have h := ih mo
      cases m1 <;> cases mo <;>
        simp [traceOf, primsOfTrace, countPrim_append, countPrim, transRawCall,
          primsOfCall, relPrim, acqPrim] at h ⊢ <;>
        omega

/-- C5: every successful `read()` is balanced by exactly one
`unlock_read()` and every successful `write()` by exactly one
`unlock_write()` — in the full trace of an acquisition followed by any
consumption of the guard (a destructor drop, or a chain of the four
condvar-mediated transitions each performing the release itself), the
releases of each mode equal the acquisitions of that mode; and a guard's
destructor invokes the matching raw unlock exactly once. -/
theorem c5_acquire_release_balanced :
    (∀ (m : Mode) (u : Use m) (mo : Mode),
      countPrim (relPrim mo) (primsOfTrace (acquireCall m :: traceOf u)) =
        countPrim (acqPrim mo) (primsOfTrace (acquireCall m :: traceOf u))) ∧
    (∀ (α : Type) (g : SharedMutexReadGuard α),
      g.dropCalls = [RawCall.unlock_read]) ∧
    (∀ (α : Type) (g : SharedMutexWriteGuard α),
      g.dropCalls = [RawCall.unlock_write]) := by
  refine ⟨?_, fun _ _ => rfl, fun _ _ => rfl⟩
  intro m u mo
  have h := use_net_release u mo
  cases m <;> cases mo <;>
    simp [primsOfTrace, acquireCall, primsOfCall, countPrim_append, countPrim,
      relPrim, acqPrim] at h ⊢ <;>
    omega

/-- C6: none of the four condvar-mediated transition methods runs the
ordinary release of its input ticket — each performs exactly its raw wait
call (whose footprint releases the source mode exactly once, inline) and
never the guard's destructor unlock. -/
theorem c6_forget_on_transition :
    (∀ (α : Type) (g : SharedMutexReadGuard α) (cv : Nat),
      (g.wait_for_read cv).1 = [RawCall.wait_from_read_to_read] ∧
      (g.wait_for_write cv).1 = [RawCall.wait_from_read_to_write] ∧
      RawCall.unlock_read ∉ (g.wait_for_read cv).1 ∧
      RawCall.unlock_read ∉ (g.wait_for_write cv).1 ∧
      countPrim Prim.relR (primsOfTrace (g.wait_for_read cv).1) = 1 ∧
      countPrim Prim.relR (primsOfTrace (g.wait_for_write cv).1) = 1) ∧
    (∀ (α : Type) (g : SharedMutexWriteGuard α) (cv : Nat),
      (g.wait_for_read cv).1 = [RawCall.wait_from_write_to_read] ∧
      (g.wait_for_write cv).1 = [RawCall.wait_from_write_to_write] ∧
      RawCall.unlock_write ∉ (g.wait_for_read cv).1 ∧
      RawCall.unlock_write ∉ (g.wait_for_write cv).1 ∧
      countPrim Prim.relW (primsOfTrace (g.wait_for_read cv).1) = 1 ∧
      countPrim Prim.relW (primsOfTrace (g.wait_for_write cv).1) = 1) := by
  constructor <;> intro α g cv <;>
    refine ⟨rfl, rfl, ?_, ?_, rfl, rfl⟩ <;>
    simp [SharedMutexReadGuard.wait_for_read, SharedMutexReadGuard.wait_for_write,
      SharedMutexWriteGuard.wait_for_read, SharedMutexWriteGuard.wait_for_write]

/-- C7: the transitions change holder mode as specified — a read guard's
`wait_for_write` consumes the read ticket and returns a write guard on the
same mutex (its destructor releases in write mode; the underlying raw wait
releases read and acquires write), and a write guard's `wait_for_read`
returns a read guard likewise, for every guard and condition variable. -/
theorem c7_transition_modes :
    (∀ (α : Type) (g : SharedMutexReadGuard α) (cv : Nat),
      (g.wait_for_write cv).2 = ⟨g.data, g.mutexId⟩ ∧
      ((g.wait_for_write cv).2).dropCalls = [RawCall.unlock_write] ∧
      primsOfCall RawCall.wait_from_read_to_write = [Prim.relR, Prim.acqW]) ∧
    (∀ (α : Type) (g : SharedMutexWriteGuard α) (cv : Nat),
      (g.wait_for_read cv).2 = ⟨g.data, g.mutexId⟩ ∧
      ((g.wait_for_read cv).2).dropCalls = [RawCall.unlock_read] ∧
      primsOfCall RawCall.wait_from_write_to_read = [Prim.relW, Prim.acqR]) :=
  ⟨fun _ _ _ => ⟨rfl, rfl, rfl⟩, fun _ _ _ => ⟨rfl, rfl, rfl⟩⟩

/-- Counterexample for C8: at state word `1` — one active reader, writer
flag clear — `write()`'s first wait-condition (`writer_active`) does not
hold, yet `try_write` reports would-block (it cannot succeed, since
succeeding would leave a write-holder coexisting with a reader, and it must
not block at `write()`'s second wait; scenario S5 of the spec makes this
failure explicit).  So `try_write` does not report would-block exactly when
the first wait-condition holds. -/
theorem c8_counterexample :
    (RawSharedMutex.try_write 1).1 = false ∧ is_writer_active 1 = false := by
  constructor <;> rfl

/-- C8 (amended): `try_read` and `try_write` never block and report
would-block exactly when the raw try-acquire fails; for `try_read` that is
exactly when `read()`'s first wait-condition (`writer_active` or
`at_max_readers`) holds, while for `try_write` it is when `writer_active`
is set or any reader is active — not only when `write()`'s first
wait-condition holds.  Otherwise the caller becomes a read-holder (resp.
write-holder), even when poisoning is reported.  Would-block is the only
distinguished failure and only the `try_*` variants raise it. -/
theorem c8_try_would_block (α : Type) (m : SharedMutex α) :
    ((m.try_read).1 = TryResult.wouldBlock ↔
      (RawSharedMutex.try_read m.word).1 = false) ∧
    ((m.try_write).1 = TryResult.wouldBlock ↔
      (RawSharedMutex.try_write m.word).1 = false) ∧
    ((RawSharedMutex.try_read m.word).1 = false ↔
      (is_writer_active m.word || at_max_readers m.word) = true) ∧
    ((RawSharedMutex.try_write m.word).1 = false ↔
      (is_writer_active m.word || decide (0 < readers m.word)) = true) ∧
    ((m.try_read).1.acquired = (RawSharedMutex.try_read m.word).1) ∧
    ((m.try_write).1.acquired = (RawSharedMutex.try_write m.word).1) := by
  unfold SharedMutex.try_read SharedMutex.try_write
  unfold RawSharedMutex.try_read RawSharedMutex.try_write
  cases h1 : is_writer_active m.word || at_max_readers m.word <;>
  cases h2 : is_writer_active m.word || decide (0 < readers m.word) <;>
  cases h3 : m.poisoned <;>
    simp [h1, h2, h3, TryResult.acquired]

/-- C9: `recover` on a mapped guard succeeds exactly on identity — for
every mapped read or write guard and candidate mutex it returns `Ok` with
the original full guard iff the passed mutex is the same lock object (as
exposed by the raw identity comparison), returns `Err` carrying back the
unchanged mapped guard otherwise, and in either case performs no lock
release, so the lock stays held. -/
theorem c9_recover_identity (α β : Type) (g : MappedSharedMutexReadGuard α)
    (gw : MappedSharedMutexWriteGuard α) (m : SharedMutex β) :
    ((g.recover m).2 = if g.mutexId = m.raw_id
        then Except.ok (⟨m.data, m.raw_id⟩ : SharedMutexReadGuard β)
        else Except.error g) ∧
    ((gw.recover m).2 = if gw.mutexId = m.raw_id
        then Except.ok (⟨m.data, m.raw_id⟩ : SharedMutexWriteGuard β)
        else Except.error gw) ∧
    (RawSharedMutex.is g.mutexId m.raw_id = true ↔ g.mutexId = m.raw_id) ∧
    (RawSharedMutex.is gw.mutexId m.raw_id = true ↔ gw.mutexId = m.raw_id) ∧
    primsOfTrace (g.recover m).1 = [] ∧
    primsOfTrace (gw.recover m).1 = [] := by
  unfold MappedSharedMutexReadGuard.recover MappedSharedMutexWriteGuard.recover
  unfold RawSharedMutex.is
  by_cases h1 : g.mutexId = m.raw_id <;> by_cases h2 : gw.mutexId = m.raw_id <;>
    simp [h1, h2, primsOfTrace, primsOfCall]

/-- C10: `result_map` on a mapped guard is atomic on failure — if the
action returns `Err e`, the caller gets back the original guard unchanged
together with `e`; if it returns `Ok`, the returned mapped guard points at
the sub-borrow on the same mutex.  In both cases the body performs no raw
lock call (the lock remains held, no unlock runs), and the release happens
exactly once, by the destructor of whichever mapped guard survives. -/
theorem c10_result_map_atomic (α β ε : Type)
    (g : MappedSharedMutexReadGuard α) (gw : MappedSharedMutexWriteGuard α)
    (action : α → Except ε β) (actionW : α → Except ε β) :
    primsOfTrace (g.result_map action).1 = [] ∧
    primsOfTrace (gw.result_map actionW).1 = [] ∧
    (match action g.data with
     | Except.error e => (g.result_map action).2 = Except.error (g, e)
     | Except.ok nd => (g.result_map action).2 = Except.ok ⟨g.mutexId, nd⟩) ∧
    (match actionW gw.data with
     | Except.error e => (gw.result_map actionW).2 = Except.error (gw, e)
     | Except.ok nd => (gw.result_map actionW).2 = Except.ok ⟨gw.mutexId, nd⟩) ∧
    (∀ (g2 : MappedSharedMutexReadGuard β),
      g2.dropCalls = [RawCall.unlock_read]) ∧
    (∀ (g2 : MappedSharedMutexWriteGuard β),
      g2.dropCalls = [RawCall.unlock_write]) := by
  refine ⟨?_, ?_, ?_, ?_, fun _ => rfl, fun _ => rfl⟩
  · unfold MappedSharedMutexReadGuard.result_map
    rcases action g.data with e | nd <;> simp [primsOfTrace]
  · unfold MappedSharedMutexWriteGuard.result_map
    rcases actionW gw.data with e | nd <;> simp [primsOfTrace]
  · rcases h : action g.data with e | nd <;>
      simp [MappedSharedMutexReadGuard.result_map, h]
  · rcases h : actionW gw.data with e | nd <;>
      simp [MappedSharedMutexWriteGuard.result_map, h]
